import Mathlib

/-!
Verification of `backend/remove_large_files.py`.

The repository consists of a single pure callback `filter_file(path, blob, commit)`
for a git history-rewriting tool.  We model byte sequences as `List Nat`
(each element a byte value) and the deletion signal `None` as `Option.none`;
retaining the blob is `some blob`.  The `commit` argument is opaque and is
modelled as a value of an arbitrary type.
-/

namespace RemoveLargeFiles

/-- Byte sequence of an ASCII string literal, as it appears in the Python
source (`b"..."` literals are ASCII byte strings). -/
def strBytes (s : String) : List Nat :=
  s.toList.map Char.toNat

/-- The rule-1 prefix constant `b"backend/vectorstore/vectorstore.hnsw"`. -/
def hnswPrefix : List Nat :=
  strBytes "backend/vectorstore/vectorstore.hnsw"

/-- The rule-2 exact-match constant `b"backend/vectorstore/checkpoint.json"`. -/
def checkpointPath : List Nat :=
  strBytes "backend/vectorstore/checkpoint.json"

/-- Embedding of `filter_file` from `backend/remove_large_files.py`:

```
def filter_file(path, blob, commit):
    if path.startswith(b"backend/vectorstore/vectorstore.hnsw") or \
       path == b"backend/vectorstore/checkpoint.json":
        return None  # Remove this file
    return blob
```

`path.startswith(pre)` is `pre.isPrefixOf path`; `None` is `none`;
returning `blob` is `some blob`.  The unused `commit` is a value of an
arbitrary type `C`. -/
def filter_file {C : Type u} (path blob : List Nat) (commit : C) : Option (List Nat) :=
  if hnswPrefix.isPrefixOf path || path == checkpointPath then
    none
  else
    some blob

end RemoveLargeFiles

namespace RemoveLargeFiles

/-- C1: for every path that starts with the byte sequence
`backend/vectorstore/vectorstore.hnsw`, and for every blob and commit,
`filter_file` returns the deletion signal `none`, regardless of the blob. -/
theorem C1_prefix_match_deletes {C : Type u} (path blob : List Nat) (commit : C)
    (h : hnswPrefix.isPrefixOf path = true) :
    filter_file path blob commit = none := by
  simp [filter_file, h]

/-- Witness for C1 at the spec's concrete scenario
`path = b"backend/vectorstore/vectorstore.hnsw.idx"`, `blob = b"\x00\x01"`. -/
theorem C1_prefix_match_deletes_witness :
    hnswPrefix.isPrefixOf (strBytes "backend/vectorstore/vectorstore.hnsw.idx") = true ∧
      filter_file (strBytes "backend/vectorstore/vectorstore.hnsw.idx") [0, 1] (0 : Nat) = none :=
  ⟨by decide, C1_prefix_match_deletes _ _ _ (by decide)⟩

/-- C2: for the path exactly `backend/vectorstore/checkpoint.json`, and for
every blob and commit, `filter_file` returns the deletion signal `none`. -/
theorem C2_checkpoint_exact_deletes {C : Type u} (blob : List Nat) (commit : C) :
    filter_file checkpointPath blob commit = none := by
  simp [filter_file]

/-- C3: for every path that neither starts with
`backend/vectorstore/vectorstore.hnsw` nor equals
`backend/vectorstore/checkpoint.json`, `filter_file` returns the blob
unchanged. -/
theorem C3_other_paths_pass_through {C : Type u} (path blob : List Nat) (commit : C)
    (h1 : hnswPrefix.isPrefixOf path = false) (h2 : path ≠ checkpointPath) :
    filter_file path blob commit = some blob := by
  simp [filter_file, h1, h2]

/-- Witness for C3 at the spec's concrete scenario
`path = b"backend/app.py"`, `blob = b"print(1)"`. -/
theorem C3_other_paths_pass_through_witness :
    hnswPrefix.isPrefixOf (strBytes "backend/app.py") = false ∧
      strBytes "backend/app.py" ≠ checkpointPath ∧
      filter_file (strBytes "backend/app.py") (strBytes "print(1)") (0 : Nat) =
        some (strBytes "print(1)") :=
  ⟨by decide, by decide,
    C3_other_paths_pass_through _ _ _ (by decide) (by decide)⟩

/-- C4: the result of `filter_file` is independent of the commit argument,
even across commits of different types. -/
theorem C4_commit_independent {C₁ : Type u} {C₂ : Type v}
    (path blob : List Nat) (c₁ : C₁) (c₂ : C₂) :
    filter_file path blob c₁ = filter_file path blob c₂ := by
  simp [filter_file]

/-- C5: `filter_file` is total and cannot fail: for every path, blob and
commit it produces a result, which is either the deletion signal `none` or
the byte sequence `some blob`; no other outcome (in particular no error)
is reachable. -/
theorem C5_total_no_failure {C : Type u} (path blob : List Nat) (commit : C) :
    filter_file path blob commit = none ∨ filter_file path blob commit = some blob := by
  unfold filter_file
  by_cases h : (hnswPrefix.isPrefixOf path || path == checkpointPath) = true
  · exact Or.inl (by simp [h])
  · exact Or.inr (by simp [h])

/-- C6: `filter_file` is deterministic: two invocations with identical
path, blob and commit inputs yield identical results. -/
theorem C6_deterministic {C : Type u}
    (p₁ p₂ b₁ b₂ : List Nat) (c₁ c₂ : C)
    (hp : p₁ = p₂) (hb : b₁ = b₂) (hc : c₁ = c₂) :
    filter_file p₁ b₁ c₁ = filter_file p₂ b₂ c₂ := by
  rw [hp, hb, hc]

/-- Witness for C6 at a concrete input. -/
theorem C6_deterministic_witness :
    filter_file (strBytes "backend/app.py") [1, 2] (0 : Nat) =
      filter_file (strBytes "backend/app.py") [1, 2] (0 : Nat) :=
  C6_deterministic _ _ _ _ _ _ rfl rfl rfl

/-- C7: the path `backend/vectorstore/checkpoint.json.bak` matches neither
rule (rule 2 requires exact equality, and it does not carry the rule-1
prefix), so for every blob and commit `filter_file` returns the blob
unchanged. -/
theorem C7_checkpoint_bak_passes_through {C : Type u} (blob : List Nat) (commit : C) :
    filter_file (strBytes "backend/vectorstore/checkpoint.json.bak") blob commit = some blob := by
  simp [filter_file]
  decide

/-- C8: the path `backend/vectorstore/vectorstore.hnswfoo` matches rule 1
by prefix (equality is not required), so for every blob and commit
`filter_file` returns the deletion signal. -/
theorem C8_hnswfoo_deleted {C : Type u} (blob : List Nat) (commit : C) :
    filter_file (strBytes "backend/vectorstore/vectorstore.hnswfoo") blob commit = none := by
  simp [filter_file]
  decide

/-- C9: the empty path matches neither rule, so for every blob and commit
`filter_file` returns the blob unchanged. -/
theorem C9_empty_path_passes_through {C : Type u} (blob : List Nat) (commit : C) :
    filter_file [] blob commit = some blob := by
  simp [filter_file]
  decide

/-- C10: the path exactly equal to the bare prefix
`backend/vectorstore/vectorstore.hnsw` is deleted: the prefix match of
rule 1 includes the equal-length case. -/
theorem C10_bare_prefix_deleted {C : Type u} (blob : List Nat) (commit : C) :
    filter_file hnswPrefix blob commit = none := by
  simp [filter_file]

end RemoveLargeFiles
